import Mathlib

/-!
Shallow embedding of the ZeroBridge coordinator and relayer sources
(zcash-coordinator, relayer), together with theorems settling the
spec claims about liquidity accounting, the withdrawal pipeline,
notification idempotency, the token registry and the relayer task
claims.

Rust u64 values are modelled as Nat; additions that the source
performs on u64 are taken modulo 2^64 (release-mode wrap), while
subtractions only ever happen behind the guards of the source and
therefore never truncate.  Fallible Rust functions returning
anyhow Result are modelled with Except String.  External crates
(sha2, blake2, sqlx) are modelled by parameters or by the SQL
semantics visible in the query strings of the source.
-/

namespace ZeroBridge

/-- Modulus of the Rust u64 type. -/
def U64MOD : Nat := 2 ^ 64

/-- Little-endian byte encoding of a u64 value, as produced by
`amount.to_le_bytes()` in the source (8 bytes). -/
def u64le (n : Nat) : List Nat :=
  (List.range 8).map (fun i => n / 256 ^ i % 256)

/-- UTF-8 bytes of a string, as produced by `s.as_bytes()`. -/
def strBytes (s : String) : List Nat :=
  s.toUTF8.toList.map (fun b => b.toNat)

/-- Rust `str::to_lowercase`, character-wise over the string data. -/
def strLower (s : String) : String := String.mk (s.data.map Char.toLower)

/-- Rust `str::to_uppercase`, character-wise over the string data. -/
def strUpper (s : String) : String := String.mk (s.data.map Char.toUpper)

/-! ## Liquidity manager (`zcash-coordinator/src/liquidity_manager.rs`)

`LiquidityPool` mirrors the Rust struct.  The pool table
(`HashMap<(u64, String), LiquidityPool>`) is an association list with
most-recent-insertion-first lookup; `Database::update_liquidity_pool`
(an `INSERT OR REPLACE` on the `liquidity_pools` table) is the `db`
snapshot component of `LMState`.  Each mutating operation takes a
`dbOk` flag telling whether the durable write succeeds; the source
propagates a failed write with `?` after having already mutated the
in-memory pool. -/

structure LiquidityPool where
  chain_id : Nat
  token : String
  available : Nat
  locked : Nat
  target : Nat
  last_rebalance : Nat
  deriving Repr, DecidableEq

/-- Pool identifier `(chain_id, token_address)`. -/
abbrev PoolKey := Nat × String

/-- First-match lookup in an association list (Rust `HashMap::get`,
also the point lookup of the SQL primary-key tables). -/
def alistGet {κ α : Type} [DecidableEq κ] : List (κ × α) → κ → Option α
  | [], _ => none
  | e :: rest, k => if e.1 = k then some e.2 else alistGet rest k

/-- Remove every binding of key `k`. -/
def alistDrop {κ α : Type} [DecidableEq κ] : List (κ × α) → κ → List (κ × α)
  | [], _ => []
  | e :: rest, k =>
    if e.1 = k then alistDrop rest k else e :: alistDrop rest k

/-- Insert-or-replace (Rust `HashMap::insert` / mutation through
`get_mut` / `entry().or_insert`, and SQL INSERT OR REPLACE).  Consing a
fresh binding shadows any older one under first-match lookup. -/
def alistPut {κ α : Type} [DecidableEq κ] (l : List (κ × α)) (k : κ) (v : α) :
    List (κ × α) :=
  (k, v) :: alistDrop l k

/-- In-memory pool table plus the durable `liquidity_pools` snapshot
(columns available, locked, target — `update_liquidity_pool` always
writes target 0). -/
structure LMState where
  pools : List (PoolKey × LiquidityPool)
  db : List (PoolKey × (Nat × Nat × Nat))
  deriving Repr, DecidableEq

/-- `Database::update_liquidity_pool`: INSERT OR REPLACE of
`(chain_id, token, available, locked, 0)`. -/
def update_liquidity_pool (db : List (PoolKey × (Nat × Nat × Nat)))
    (chain_id : Nat) (token : String) (available locked : Nat) :
    List (PoolKey × (Nat × Nat × Nat)) :=
  alistPut db (chain_id, token) (available, locked, 0)

/-- `LiquidityManager::ensure_liquidity`: read-only check; `Pool not
found` when the key is absent, `Insufficient liquidity` when
`available < amount`. -/
def ensure_liquidity (st : LMState) (chain_id : Nat) (token : String)
    (amount : Nat) : Except String Unit :=
  match alistGet st.pools (chain_id, token) with
  | none => .error "Pool not found"
  | some pool =>
    if pool.available < amount then
      .error ("Insufficient liquidity: need " ++ toString amount ++
        ", have " ++ toString pool.available)
    else .ok ()

/-- `LiquidityManager::lock_liquidity`: moves `amount` from available
to locked, then persists; a failed durable write leaves the in-memory
mutation in place and returns the error. -/
def lock_liquidity (dbOk : Bool) (st : LMState) (chain_id : Nat)
    (token : String) (amount : Nat) : LMState × Except String Unit :=
  match alistGet st.pools (chain_id, token) with
  | none => (st, .error "Pool not found")
  | some pool =>
    if pool.available < amount then
      (st, .error "Insufficient available liquidity")
    else
      let pool2 := { pool with
        available := pool.available - amount,
        locked := (pool.locked + amount) % U64MOD }
      let pools2 := alistPut st.pools (chain_id, token) pool2
      if dbOk then
        ({ pools := pools2,
           db := update_liquidity_pool st.db chain_id token
             pool2.available pool2.locked }, .ok ())
      else
        ({ st with pools := pools2 }, .error "database write failed")

/-- `LiquidityManager::release_liquidity`: if `locked < amount` the
source logs a warning and returns Ok with no change; otherwise it only
decrements `locked` (available is untouched), then persists. -/
def release_liquidity (dbOk : Bool) (st : LMState) (chain_id : Nat)
    (token : String) (amount : Nat) : LMState × Except String Unit :=
  match alistGet st.pools (chain_id, token) with
  | none => (st, .error "Pool not found")
  | some pool =>
    if pool.locked < amount then
      (st, .ok ())
    else
      let pool2 := { pool with locked := pool.locked - amount }
      let pools2 := alistPut st.pools (chain_id, token) pool2
      if dbOk then
        ({ pools := pools2,
           db := update_liquidity_pool st.db chain_id token
             pool2.available pool2.locked }, .ok ())
      else
        ({ st with pools := pools2 }, .error "database write failed")

/-- `LiquidityManager::add_liquidity`: `entry().or_insert` of a zero
pool, then `available += amount`, then persist. -/
def add_liquidity (dbOk : Bool) (st : LMState) (chain_id : Nat)
    (token : String) (amount : Nat) : LMState × Except String Unit :=
  let pool0 := (alistGet st.pools (chain_id, token)).getD
    { chain_id := chain_id, token := token, available := 0, locked := 0,
      target := 0, last_rebalance := 0 }
  let pool2 := { pool0 with available := (pool0.available + amount) % U64MOD }
  let pools2 := alistPut st.pools (chain_id, token) pool2
  if dbOk then
    ({ pools := pools2,
       db := update_liquidity_pool st.db chain_id token
         pool2.available pool2.locked }, .ok ())
  else
    ({ st with pools := pools2 }, .error "database write failed")

/-- `LiquidityManager::remove_liquidity`: guarded `available -= amount`,
then persist. -/
def remove_liquidity (dbOk : Bool) (st : LMState) (chain_id : Nat)
    (token : String) (amount : Nat) : LMState × Except String Unit :=
  match alistGet st.pools (chain_id, token) with
  | none => (st, .error "Pool not found")
  | some pool =>
    if pool.available < amount then
      (st, .error "Insufficient available liquidity")
    else
      let pool2 := { pool with available := pool.available - amount }
      let pools2 := alistPut st.pools (chain_id, token) pool2
      if dbOk then
        ({ pools := pools2,
           db := update_liquidity_pool st.db chain_id token
             pool2.available pool2.locked }, .ok ())
      else
        ({ st with pools := pools2 }, .error "database write failed")

/-- Sum available + locked of the pool at `k` (0 when absent). -/
def poolSum (st : LMState) (k : PoolKey) : Nat :=
  match alistGet st.pools k with
  | none => 0
  | some pool => pool.available + pool.locked

/-- One liquidity operation of a run, tagged with whether its durable
write succeeds. -/
inductive LMOp where
  | add (chain_id : Nat) (token : String) (amount : Nat) (dbOk : Bool)
  | remove (chain_id : Nat) (token : String) (amount : Nat) (dbOk : Bool)
  | lock (chain_id : Nat) (token : String) (amount : Nat) (dbOk : Bool)
  | release (chain_id : Nat) (token : String) (amount : Nat) (dbOk : Bool)
  deriving Repr, DecidableEq

/-- Apply one operation (state evolution only). -/
def lmStep (st : LMState) : LMOp → LMState
  | .add c t a ok => (add_liquidity ok st c t a).1
  | .remove c t a ok => (remove_liquidity ok st c t a).1
  | .lock c t a ok => (lock_liquidity ok st c t a).1
  | .release c t a ok => (release_liquidity ok st c t a).1

/-- Run a sequence of liquidity operations. -/
def lmRun (st : LMState) : List LMOp → LMState
  | [] => st
  | op :: ops => lmRun (lmStep st op) ops

/-- An operation is a lock whose addition to `locked` stays below
2^64 in the state it executes in (no u64 wrap). -/
def lockNoWrap (st : LMState) : LMOp → Prop
  | .lock c t a _ =>
    match alistGet st.pools (c, t) with
    | none => True
    | some pool => pool.locked + a < U64MOD
  | _ => False

/-- `lockNoWrap` holds at every step of a run consisting of locks. -/
def locksNoWrap (st : LMState) : List LMOp → Prop
  | [] => True
  | op :: ops => lockNoWrap st op ∧ locksNoWrap (lmStep st op) ops

/-! ## Coordinator store (`zcash-coordinator/src/database.rs`)

The three tables the claims touch.  `deposits` and `withdrawals` have
TEXT PRIMARY KEY id columns and are written with plain INSERT, so a
second insert with the same id fails with a unique-constraint error;
`nullifiers` is written with INSERT OR REPLACE.  Tables are lists in
insertion order; the `ORDER BY created_at` of the SELECTs only affects
ordering, never membership, and ids are unique by the primary key. -/

/-- `database::Deposit` (bytes as `List Nat`). -/
structure Deposit where
  deposit_id : String
  source_chain_id : Nat
  target_chain_id : Nat
  sender : String
  recipient : List Nat
  token : String
  amount : Nat
  zcash_address : List Nat
  processed : Bool
  zcash_txid : Option String
  note_commitment : Option String
  created_at : Int
  deriving Repr, DecidableEq

/-- `database::Withdrawal`. -/
structure Withdrawal where
  withdrawal_id : String
  target_chain_id : Nat
  recipient : String
  token : String
  amount : Nat
  nullifier : List Nat
  zcash_proof : List Nat
  merkle_root : List Nat
  authorized : Bool
  auth_signature : Option (List Nat)
  created_at : Int
  deriving Repr, DecidableEq

/-- The coordinator store: `deposits`, `withdrawals` and the
`nullifiers(nullifier TEXT PRIMARY KEY, spent, ...)` table, the latter
reduced to its key and spent flag. -/
structure Database where
  deposits : List Deposit
  withdrawals : List Withdrawal
  nullifiers : List (String × Bool)
  deriving Repr, DecidableEq

/-- `Database::store_deposit`: plain INSERT into a PRIMARY KEY table;
fails when the id already exists. -/
def store_deposit (db : Database) (d : Deposit) : Except String Database :=
  if db.deposits.any (fun d0 => d0.deposit_id = d.deposit_id) then
    .error "UNIQUE constraint failed: deposits.deposit_id"
  else
    .ok { db with deposits := db.deposits ++ [d] }

/-- `Database::get_pending_deposits`: SELECT WHERE processed = 0. -/
def get_pending_deposits (db : Database) : List Deposit :=
  db.deposits.filter (fun d => !d.processed)

/-- `Database::mark_deposit_processed`: UPDATE by id. -/
def mark_deposit_processed (db : Database) (deposit_id : String)
    (note_commitment zcash_txid : String) : Database :=
  { db with deposits := db.deposits.map (fun d =>
      if d.deposit_id = deposit_id then
        { d with
          processed := true,
          note_commitment := some note_commitment,
          zcash_txid := some zcash_txid }
      else d) }

/-- `Database::store_withdrawal`: plain INSERT into a PRIMARY KEY
table; fails when the id already exists. -/
def store_withdrawal (db : Database) (w : Withdrawal) :
    Except String Database :=
  if db.withdrawals.any (fun w0 => w0.withdrawal_id = w.withdrawal_id) then
    .error "UNIQUE constraint failed: withdrawals.withdrawal_id"
  else
    .ok { db with withdrawals := db.withdrawals ++ [w] }

/-- `Database::get_pending_withdrawals`: SELECT WHERE authorized = 0. -/
def get_pending_withdrawals (db : Database) : List Withdrawal :=
  db.withdrawals.filter (fun w => !w.authorized)

/-- `Database::get_authorized_withdrawals`: SELECT WHERE authorized = 1. -/
def get_authorized_withdrawals (db : Database) : List Withdrawal :=
  db.withdrawals.filter (fun w => w.authorized)

/-- `Database::authorize_withdrawal`: UPDATE SET authorized = 1,
auth_signature = sig WHERE withdrawal_id = id (no transition guard on
the previous value of `authorized`). -/
def authorize_withdrawal (db : Database) (withdrawal_id : String)
    (_token_address : String) (_amount : Nat) (auth_signature : List Nat) :
    Database :=
  { db with withdrawals := db.withdrawals.map (fun w =>
      if w.withdrawal_id = withdrawal_id then
        { w with authorized := true, auth_signature := some auth_signature }
      else w) }

/-- `Database::mark_withdrawal_invalid`: a DELETE by id; the `_reason`
argument is ignored by the source and recorded nowhere. -/
def mark_withdrawal_invalid (db : Database) (withdrawal_id : String)
    (_reason : String) : Database :=
  { db with withdrawals :=
      db.withdrawals.filter (fun w => ¬ w.withdrawal_id = withdrawal_id) }

/-- `Database::mark_nullifier_spent`: INSERT OR REPLACE with spent = 1. -/
def mark_nullifier_spent (db : Database) (nullifier : String) : Database :=
  { db with nullifiers := alistPut db.nullifiers nullifier true }

/-- `Database::is_nullifier_spent`: the stored spent flag, false when
the nullifier is unknown. -/
def is_nullifier_spent (db : Database) (nullifier : String) : Bool :=
  (alistGet db.nullifiers nullifier).getD false

/-- Lower-case hex digit, as in the `hex` crate. -/
def hexDigit (n : Nat) : Char :=
  if n < 10 then Char.ofNat (48 + n) else Char.ofNat (87 + n)

/-- `hex::encode` of a byte sequence. -/
def hexEncode (bs : List Nat) : String :=
  String.mk (bs.foldr (fun b acc =>
    hexDigit (b % 256 / 16) :: hexDigit (b % 16) :: acc) [])

/-! ## Shielded pool capability

`main.rs` and `lib.rs` declare `mod shielded_pool` /
`ShieldedPoolManager`, but `shielded_pool.rs` is not present under
src; only its callers are.  The two operations the withdrawal
pipeline uses are modelled from the spec. -/

/-- Modelled from the spec: `ShieldedPoolManager::verify_withdrawal_proof`
(file `shielded_pool.rs` missing from the source tree).  Per the spec,
the shielded-settlement capability "verifies a withdrawal proof
against a nullifier and merkle root", and the withdrawal pipeline
first checks that the nullifier is not already spent in the local
store (the step-1 check, `database::is_nullifier_spent`) before the
step-2 proof verification; a spent nullifier or an invalid proof makes
verification fail.  The black-box zero-knowledge verification itself is
the parameter `pv` applied to `(nullifier, proof, merkle_root,
amount)`. -/
def verify_withdrawal_proof
    (pv : List Nat → List Nat → List Nat → Nat → Bool) (db : Database)
    (nullifier proof merkle_root : List Nat) (amount : Nat) : Bool :=
  !(is_nullifier_spent db (hexEncode nullifier)) &&
    pv nullifier proof merkle_root amount

/-- Modelled from the spec: `ShieldedPoolManager::mark_nullifier_spent`
(file `shielded_pool.rs` missing from the source tree) marks the
nullifier spent in the coordinator store,
`database::mark_nullifier_spent`, keyed by the hex encoding of the
32-byte nullifier. -/
def sp_mark_nullifier_spent (db : Database) (nullifier : List Nat) :
    Database :=
  mark_nullifier_spent db (hexEncode nullifier)

/-! ## Token registry (`zcash-coordinator/src/token_registry.rs`)

The Blake2b-512/truncate/hex pipeline of `compute_canonical_id` comes
from external crates and is the parameter `Hc`; the registry logic
(normalisation, insertion, lookups) is translated from the source.
`load` is modelled from the point after file reading and TOML parsing
(both external) succeed, i.e. over the parsed `TokenConfig`. -/

/-- `token_registry::TokenRepresentation` (config file entry). -/
structure TokenRepresentation where
  chain_id : Nat
  chain_name : String
  address : String
  decimals : Option Nat
  native : Bool
  wrapped_version : Option String
  deriving Repr, DecidableEq

/-- `token_registry::TokenDefinition` (config file entry). -/
structure TokenDefinition where
  symbol : String
  name : String
  decimals : Nat
  representations : List TokenRepresentation
  deriving Repr, DecidableEq

/-- `token_registry::TokenConfig` (parsed config file). -/
structure TokenConfig where
  tokens : List TokenDefinition
  deriving Repr, DecidableEq

/-- `token_registry::ChainToken`. -/
structure ChainToken where
  chain_id : Nat
  chain_name : String
  address : String
  decimals : Nat
  native : Bool
  wrapped_version : Option String
  deriving Repr, DecidableEq

/-- `token_registry::TokenMappings` (canonical ids are the hex strings
produced by `compute_canonical_id`, kept as `String`). -/
structure TokenMappings where
  canonical_id : String
  symbol : String
  name : String
  decimals : Nat
  representations : List ChainToken
  deriving Repr, DecidableEq

/-- `token_registry::TokenRegistry`. -/
structure TokenRegistry where
  mappings : List (String × TokenMappings)
  reverse_lookup : List ((Nat × String) × String)
  deriving Repr, DecidableEq

/-- `TokenRegistry::compute_canonical_id`: `Hc` abstracts
hex(blake2b512(...)[..16]). -/
def compute_canonical_id (Hc : String → String) (symbol : String) : String :=
  Hc (strUpper symbol)

/-- The `ChainToken` built for one representation of a definition. -/
def mkChainToken (tdef : TokenDefinition) (r : TokenRepresentation) :
    ChainToken :=
  { chain_id := r.chain_id, chain_name := r.chain_name,
    address := r.address, decimals := r.decimals.getD tdef.decimals,
    native := r.native, wrapped_version := r.wrapped_version }

/-- Inner loop of `TokenRegistry::load` over one definition: extend
the reverse lookup (insert-or-replace keyed by
`(chain_id, address.to_lowercase())`) and collect the representations. -/
def loadReprs (cid : String) (tdef : TokenDefinition)
    (rev0 : List ((Nat × String) × String)) :
    List ((Nat × String) × String) × List ChainToken :=
  tdef.representations.foldl
    (fun acc r =>
      (alistPut acc.1 (r.chain_id, (strLower r.address)) cid,
       acc.2 ++ [mkChainToken tdef r]))
    (rev0, [])

/-- Outer loop of `TokenRegistry::load` over the token definitions. -/
def loadTokens (Hc : String → String)
    (acc : List (String × TokenMappings) × List ((Nat × String) × String)) :
    List TokenDefinition →
    List (String × TokenMappings) × List ((Nat × String) × String)
  | [] => acc
  | tdef :: rest =>
    let cid := compute_canonical_id Hc tdef.symbol
    let res := loadReprs cid tdef acc.2
    let tm : TokenMappings :=
      { canonical_id := cid, symbol := tdef.symbol, name := tdef.name,
        decimals := tdef.decimals, representations := res.2 }
    loadTokens Hc (alistPut acc.1 cid tm, res.1) rest

/-- `TokenRegistry::load`, from the parsed `TokenConfig` on: builds
the mappings and reverse-lookup tables; no failure path exists past
parsing (duplicate chain-address aliases are inserted over the
previous binding). -/
def load (Hc : String → String) (config : TokenConfig) : TokenRegistry :=
  let res := loadTokens Hc ([], []) config.tokens
  { mappings := res.1, reverse_lookup := res.2 }

/-- `TokenRegistry::get_token_for_chain`. -/
def get_token_for_chain (reg : TokenRegistry) (chain_id : Nat)
    (token_address : String) : Except String ChainToken :=
  match alistGet reg.reverse_lookup (chain_id, (strLower token_address)) with
  | none => .error "Token not found in registry"
  | some cid =>
    match alistGet reg.mappings cid with
    | none => .error "Token mappings not found"
    | some tm =>
      match tm.representations.find? (fun t => t.chain_id = chain_id) with
      | none => .error "Token not available on specified chain"
      | some t => .ok t

/-- `TokenRegistry::get_canonical_id`. -/
def get_canonical_id (reg : TokenRegistry) (chain_id : Nat)
    (token_address : String) : Option String :=
  alistGet reg.reverse_lookup (chain_id, (strLower token_address))

/-- The binding a duplicate-aliasing file actually leaves in the
reverse lookup: the canonical id of the LAST definition in file order
having a representation for the key (spec side of the C7 analysis). -/
def lastAlias (Hc : String → String) (k : Nat × String) :
    List TokenDefinition → Option String
  | [] => none
  | tdef :: rest =>
    match lastAlias Hc k rest with
    | some cid => some cid
    | none =>
      if tdef.representations.any
          (fun r => (r.chain_id, (strLower r.address)) = k) then
        some (compute_canonical_id Hc tdef.symbol)
      else none

/-! ## Coordinator engine (`zcash-coordinator/src/main.rs`)

`generate_withdrawal_signature` hashes through the incremental sha2
hasher interface; the SHA-256 compression itself is the parameter
`H`.  The function takes `&self` (the coordinator, whose
configuration holds its only secret key material, the Zcash spending
key) but reads none of its fields. -/

/-- The coordinator configuration fields relevant to signing: the only
key material `config.rs` carries (`zcash.spending_key`). -/
structure CoordConfig where
  spending_key : String
  deriving Repr, DecidableEq

/-- Incremental hasher state (`sha2::Sha256::new` / `update` /
`finalize`): `update` appends bytes, `finalize` applies the (external)
compression `H` to everything absorbed. -/
structure Sha256Hasher where
  acc : List Nat
  deriving Repr, DecidableEq

/-- `hasher.update(bytes)`. -/
def hUpdate (h : Sha256Hasher) (bs : List Nat) : Sha256Hasher :=
  { acc := h.acc ++ bs }

/-- `Coordinator::generate_withdrawal_signature`: absorbs
withdrawal_id, recipient, token, amount.to_le_bytes() and nullifier,
and returns the finalized digest itself as the signature ("For now,
return the hash as signature" in the source); no field of the
coordinator, in particular no key, is read. -/
def generate_withdrawal_signature (H : List Nat → List Nat)
    (_cfg : CoordConfig) (withdrawal_id recipient token : String)
    (amount : Nat) (nullifier : List Nat) : List Nat :=
  let hasher : Sha256Hasher := { acc := [] }
  let hasher := hUpdate hasher (strBytes withdrawal_id)
  let hasher := hUpdate hasher (strBytes recipient)
  let hasher := hUpdate hasher (strBytes token)
  let hasher := hUpdate hasher (u64le amount)
  let hasher := hUpdate hasher nullifier
  H hasher.acc

/-- Coordinator state seen by the withdrawal pipeline: the store and
the liquidity manager. -/
structure CoordState where
  db : Database
  lm : LMState
  deriving Repr, DecidableEq

/-- Outcome of one `handle_withdrawal` call: discarded (record
deleted), failed before the authorization write, authorized and fully
completed, or authorized with a later release error. -/
inductive HandleResult where
  | discarded (reason : String)
  | errBeforeAuth (msg : String)
  | ok
  | errAfterAuth (msg : String)
  deriving Repr, DecidableEq

/-- Whether the call performed the `authorize_withdrawal` write. -/
def didAuthorize : HandleResult → Bool
  | .ok => true
  | .errAfterAuth _ => true
  | _ => false

/-- `Coordinator::handle_withdrawal` on a pending-withdrawal snapshot
`w`: verify the proof (invalid: delete the record, reason string
"Invalid proof", and stop); mark the nullifier spent; resolve the
destination token (failure leaves the record, after the nullifier
write); sign; persist `authorized = 1` with the signature; release the
locked destination liquidity (`relDbOk` is the durable-write outcome
of that release). -/
def handle_withdrawal (pv : List Nat → List Nat → List Nat → Nat → Bool)
    (H : List Nat → List Nat) (reg : TokenRegistry) (cfg : CoordConfig)
    (relDbOk : Bool) (st : CoordState) (w : Withdrawal) :
    CoordState × HandleResult :=
  let valid := verify_withdrawal_proof pv st.db w.nullifier w.zcash_proof
    w.merkle_root w.amount
  if valid = false then
    ({ st with
       db := mark_withdrawal_invalid st.db w.withdrawal_id "Invalid proof" },
     .discarded "Invalid proof")
  else
    let db2 := sp_mark_nullifier_spent st.db w.nullifier
    match get_token_for_chain reg w.target_chain_id w.token with
    | .error _ => ({ st with db := db2 },
        .errBeforeAuth "Token not found in registry")
    | .ok token_info =>
      let sig := generate_withdrawal_signature H cfg w.withdrawal_id
        w.recipient token_info.address w.amount w.nullifier
      let db3 := authorize_withdrawal db2 w.withdrawal_id
        token_info.address w.amount sig
      let rel := release_liquidity relDbOk st.lm w.target_chain_id
        token_info.address w.amount
      match rel.2 with
      | .ok _ => ({ db := db3, lm := rel.1 }, .ok)
      | .error e => ({ db := db3, lm := rel.1 }, .errAfterAuth e)

/-- Sequential executions of the withdrawal pipeline over a list of
pending-withdrawal snapshots, returning the final state and the trace
of processed snapshots with their outcomes. -/
def coordRun (pv : List Nat → List Nat → List Nat → Nat → Bool)
    (H : List Nat → List Nat) (reg : TokenRegistry) (cfg : CoordConfig)
    (relDbOk : Bool) (st : CoordState) :
    List Withdrawal → CoordState × List (Withdrawal × HandleResult)
  | [] => (st, [])
  | w :: ws =>
    let first := handle_withdrawal pv H reg cfg relDbOk st w
    let rest := coordRun pv H reg cfg relDbOk first.1 ws
    (rest.1, (w, first.2) :: rest.2)

/-- Number of pipeline executions in a trace that performed the
authorization write for a withdrawal carrying nullifier `n`. -/
def authCount (n : List Nat) (tr : List (Withdrawal × HandleResult)) : Nat :=
  (tr.filter (fun e => e.1.nullifier = n && didAuthorize e.2)).length

/-! ## RPC server (`zcash-coordinator/src/rpc_server.rs`)

Handlers over the store; HTTP error statuses are the `Nat` error
component (500, 404). -/

/-- `rpc_server::DepositNotification`. -/
structure DepositNotification where
  deposit_id : String
  source_chain_id : Nat
  target_chain_id : Nat
  sender : String
  token : String
  amount : Nat
  recipient : List Nat
  zcash_address : List Nat
  timestamp : Nat
  deriving Repr, DecidableEq

/-- `rpc_server::WithdrawalNotification`. -/
structure WithdrawalNotification where
  withdrawal_id : String
  target_chain_id : Nat
  recipient : String
  token : String
  amount : Nat
  nullifier : List Nat
  zcash_proof : List Nat
  merkle_root : List Nat
  deriving Repr, DecidableEq

/-- `rpc_server::DepositStatusResponse`. -/
structure DepositStatusResponse where
  deposit_id : String
  processed : Bool
  zcash_txid : Option String
  note_commitment : Option String
  deriving Repr, DecidableEq

/-- The unprocessed record `notify_deposit_handler` builds from a
notification. -/
def depositOfNotification (n : DepositNotification) : Deposit :=
  { deposit_id := n.deposit_id, source_chain_id := n.source_chain_id,
    target_chain_id := n.target_chain_id, sender := n.sender,
    recipient := n.recipient, token := n.token, amount := n.amount,
    zcash_address := n.zcash_address, processed := false,
    zcash_txid := none, note_commitment := none,
    created_at := (n.timestamp : Int) }

/-- POST /deposits/notify (`notify_deposit_handler`): build the
unprocessed record and `store_deposit` it; a storage error surfaces as
HTTP 500, success answers "queued". -/
def notify_deposit_handler (db : Database) (n : DepositNotification) :
    Database × Except Nat String :=
  match store_deposit db (depositOfNotification n) with
  | .error _ => (db, .error 500)
  | .ok db2 => (db2, .ok "queued")

/-- The unauthorized record `notify_withdrawal_handler` builds from a
notification; `now` is the `chrono::Utc::now().timestamp()` stamp. -/
def withdrawalOfNotification (now : Int) (n : WithdrawalNotification) :
    Withdrawal :=
  { withdrawal_id := n.withdrawal_id,
    target_chain_id := n.target_chain_id, recipient := n.recipient,
    token := n.token, amount := n.amount, nullifier := n.nullifier,
    zcash_proof := n.zcash_proof, merkle_root := n.merkle_root,
    authorized := false, auth_signature := none, created_at := now }

/-- POST /withdrawals/notify (`notify_withdrawal_handler`). -/
def notify_withdrawal_handler (db : Database) (now : Int)
    (n : WithdrawalNotification) : Database × Except Nat String :=
  match store_withdrawal db (withdrawalOfNotification now n) with
  | .error _ => (db, .error 500)
  | .ok db2 => (db2, .ok "queued")

/-- GET /deposits/:id/status (`deposit_status_handler`): fetches the
PENDING deposits (`get_pending_deposits`, i.e. processed = 0 only) and
searches them for the id; absent there means HTTP 404. -/
def deposit_status_handler (db : Database) (deposit_id : String) :
    Except Nat DepositStatusResponse :=
  match (get_pending_deposits db).find?
      (fun d => d.deposit_id = deposit_id) with
  | some d => .ok
      { deposit_id := d.deposit_id,
        processed := d.processed,
        zcash_txid := d.zcash_txid,
        note_commitment := d.note_commitment }
  | none => .error 404

/-! ## Relayer task claims (`relayer/src/p2p_network.rs`)

The local claim map `task_id -> TaskClaim` with the fixed 300 s lease
TTL; times are the `chrono` Unix timestamps of the source. -/

/-- `p2p_network::TaskClaim`. -/
structure TaskClaim where
  task_id : String
  claimed_by : String
  claimed_at : Int
  expires_at : Int
  deriving Repr, DecidableEq

/-- The local claim map. -/
abbrev ClaimMap := List (String × TaskClaim)

/-- `P2PNetwork::is_task_claimed`: a claim exists and has
`expires_at > now`. -/
def is_task_claimed (claims : ClaimMap) (task_id : String) (now : Int) :
    Bool :=
  match alistGet claims task_id with
  | some claim => decide (claim.expires_at > now)
  | none => false

/-- `P2PNetwork::broadcast_task_claim`, local effect: store a lease of
`now + 300` under our own address (the gossip send has no local
effect). -/
def broadcast_task_claim (claims : ClaimMap) (self_address : String)
    (now : Int) (task_id : String) : ClaimMap :=
  alistPut claims task_id
    { task_id := task_id, claimed_by := self_address,
      claimed_at := now, expires_at := now + 300 }

/-- `P2PNetwork::handle_claim_message` (peer CLAIM received): store a
lease of `now + 300` attributed to "peer". -/
def handle_claim_message (claims : ClaimMap) (now : Int)
    (task_id : String) : ClaimMap :=
  alistPut claims task_id
    { task_id := task_id, claimed_by := "peer",
      claimed_at := now, expires_at := now + 300 }

/-- `P2PNetwork::handle_execution_message` (peer EXECUTED received):
remove the local claim. -/
def handle_execution_message (claims : ClaimMap) (withdrawal_id : String)
    (_tx_hash : String) : ClaimMap :=
  alistDrop claims withdrawal_id

/-- `P2PNetwork::cleanup_expired_claims`. -/
def cleanup_expired_claims (claims : ClaimMap) (now : Int) : ClaimMap :=
  claims.filter (fun e => e.2.expires_at > now)

/-! ## Concrete fixtures for witnesses and counterexamples -/

/-- A pool with nothing available and 10 locked. -/
def exPoolLocked : LiquidityPool :=
  { chain_id := 1, token := "T", available := 0, locked := 10,
    target := 0, last_rebalance := 0 }

/-- Manager state holding only `exPoolLocked`. -/
def exStLocked : LMState := { pools := [((1, "T"), exPoolLocked)], db := [] }

/-- A pool with 10 available and nothing locked. -/
def exPoolAvail : LiquidityPool :=
  { chain_id := 1, token := "T", available := 10, locked := 0,
    target := 0, last_rebalance := 0 }

/-- Manager state holding only `exPoolAvail`. -/
def exStAvail : LMState := { pools := [((1, "T"), exPoolAvail)], db := [] }

/-- Manager state with no pools at all. -/
def exStEmpty : LMState := { pools := [], db := [] }

/-- An empty coordinator store. -/
def exDb0 : Database := { deposits := [], withdrawals := [], nullifiers := [] }

/-- A deposit notification. -/
def exNotif : DepositNotification :=
  { deposit_id := "d1", source_chain_id := 1, target_chain_id := 2,
    sender := "s", token := "T", amount := 5, recipient := [1],
    zcash_address := [2], timestamp := 7 }

/-- A withdrawal notification. -/
def exWNotif : WithdrawalNotification :=
  { withdrawal_id := "w9", target_chain_id := 2, recipient := "r",
    token := "T", amount := 5, nullifier := [1, 2], zcash_proof := [1],
    merkle_root := [9] }

/-- An already-processed deposit record. -/
def exDepProcessed : Deposit :=
  { deposit_id := "d1", source_chain_id := 1, target_chain_id := 2,
    sender := "s", recipient := [1], token := "T", amount := 5,
    zcash_address := [2], processed := true, zcash_txid := some "tx",
    note_commitment := some "c", created_at := 7 }

/-- A representation of some token at address 0xAbc on chain 1. -/
def exReprAbc : TokenRepresentation :=
  { chain_id := 1, chain_name := "c", address := "0xAbc",
    decimals := none, native := false, wrapped_version := none }

/-- Token definition with symbol a aliasing chain 1 / 0xAbc. -/
def exTokA : TokenDefinition :=
  { symbol := "a", name := "token a", decimals := 18,
    representations := [exReprAbc] }

/-- Token definition with symbol b aliasing the SAME chain 1 / 0xAbc. -/
def exTokB : TokenDefinition :=
  { symbol := "b", name := "token b", decimals := 18,
    representations := [exReprAbc] }

/-- A registry configuration aliasing one chain address to two
distinct canonical ids. -/
def exCfgDup : TokenConfig := { tokens := [exTokA, exTokB] }

/-- Representation of token t at address T on chain 2. -/
def exReprT : TokenRepresentation :=
  { chain_id := 2, chain_name := "c", address := "T",
    decimals := none, native := false, wrapped_version := none }

/-- Well-formed single-token configuration. -/
def exCfgT : TokenConfig :=
  { tokens := [{ symbol := "t", name := "token t", decimals := 18,
                 representations := [exReprT] }] }

/-- Registry resolving token address T on chain 2 (canonical-id hash
instantiated with the identity). -/
def exReg : TokenRegistry := load id exCfgT

/-- Proof validity oracle of the examples: a proof is valid exactly
when it is the byte string `[1]`. -/
def exPv : List Nat → List Nat → List Nat → Nat → Bool :=
  fun _ proof _ _ => proof = [1]

/-- Coordinator configuration fixture. -/
def exCfg : CoordConfig := { spending_key := "key-one" }

/-- A pending withdrawal with a valid proof, nullifier `[1, 2]`. -/
def exW1 : Withdrawal :=
  { withdrawal_id := "w1", target_chain_id := 2, recipient := "r",
    token := "T", amount := 5, nullifier := [1, 2], zcash_proof := [1],
    merkle_root := [9], authorized := false, auth_signature := none,
    created_at := 0 }

/-- A second pending withdrawal sharing the nullifier of `exW1`, also
with a valid proof. -/
def exW2 : Withdrawal := { exW1 with withdrawal_id := "w2" }

/-- A pending withdrawal whose proof is invalid for `exPv`. -/
def exWBad : Withdrawal :=
  { exW1 with withdrawal_id := "w3", zcash_proof := [0] }

/-- Destination pool for the withdrawals of the examples. -/
def exPoolDest : LiquidityPool :=
  { chain_id := 2, token := "T", available := 0, locked := 100,
    target := 0, last_rebalance := 0 }

/-- Coordinator state holding the example withdrawals and pool. -/
def exCst : CoordState :=
  { db := { deposits := [], withdrawals := [exW1, exW2], nullifiers := [] },
    lm := { pools := [((2, "T"), exPoolDest)], db := [] } }

/-! ## Helper lemmas -/

theorem alistGet_put_same {κ α : Type} [DecidableEq κ]
    (l : List (κ × α)) (k : κ) (v : α) :
    alistGet (alistPut l k v) k = some v := by
  simp [alistGet, alistPut]

theorem alistGet_drop_ne {κ α : Type} [DecidableEq κ]
    (l : List (κ × α)) (k k2 : κ) (h : ¬ k2 = k) :
    alistGet (alistDrop l k) k2 = alistGet l k2 := by
  have hkk : ¬ k = k2 := fun hh => h hh.symm
  induction l with
  | nil => rfl
  | cons e rest ih =>
    by_cases he : e.1 = k
    · have hne : ¬ e.1 = k2 := by
        intro hk; exact h (by rw [← hk, he])
      simp [alistGet, alistDrop, he, hne, ih, hkk]
    · by_cases he2 : e.1 = k2
      · simp [alistGet, alistDrop, he, he2, h]
      · simp [alistGet, alistDrop, he, he2, ih]

theorem alistGet_put_other {κ α : Type} [DecidableEq κ]
    (l : List (κ × α)) (k k2 : κ) (v : α) (h : ¬ k2 = k) :
    alistGet (alistPut l k v) k2 = alistGet l k2 := by
  have hk : ¬ (k, v).1 = k2 := by
    intro hk; exact h (by rw [← hk])
  simp [alistPut, alistGet, hk, alistGet_drop_ne l k k2 h]

theorem lmStep_lock_poolSum (st : LMState) (c : Nat) (t : String)
    (a : Nat) (dbOk : Bool)
    (h : lockNoWrap st (.lock c t a dbOk)) (k : PoolKey) :
    poolSum (lmStep st (.lock c t a dbOk)) k = poolSum st k := by
  simp only [lockNoWrap] at h
  simp only [lmStep]
  cases hg : alistGet st.pools (c, t) with
  | none => simp [lock_liquidity, hg]
  | some pool =>
    simp only [hg] at h
    by_cases hav : pool.available < a
    · simp [lock_liquidity, hg, hav]
    · have hmod : (pool.locked + a) % U64MOD = pool.locked + a :=
        Nat.mod_eq_of_lt h
      by_cases hk : k = (c, t)
      · subst hk
        cases dbOk <;>
          simp [lock_liquidity, hg, hav, poolSum, alistGet_put_same,
            hmod] <;> omega
      · cases dbOk <;>
          simp [lock_liquidity, hg, hav, poolSum,
            alistGet_put_other _ _ _ _ hk]

theorem lmRun_locks_poolSum (ops : List LMOp) :
    ∀ st : LMState, locksNoWrap st ops →
      ∀ k, poolSum (lmRun st ops) k = poolSum st k := by
  induction ops with
  | nil => intro st _ k; simp [lmRun]
  | cons op ops ih =>
    intro st h k
    obtain ⟨h1, h2⟩ := h
    cases op with
    | lock c t a dbOk =>
      rw [lmRun, ih _ h2 k, lmStep_lock_poolSum st c t a dbOk h1 k]
    | add c t a dbOk => exact absurd h1 (by simp [lockNoWrap])
    | remove c t a dbOk => exact absurd h1 (by simp [lockNoWrap])
    | release c t a dbOk => exact absurd h1 (by simp [lockNoWrap])

/-! ## Claim C2 — liquidity conservation -/

/-- Claim C2 counterexample: with available 0 and locked 10, releasing
5 succeeds but leaves available at 0 (nothing moves from locked to
available) and shrinks available + locked from 10 to 5, although the
operation is neither add nor remove.  The claim as stated is false on
the source. -/
theorem release_liquidity_breaks_conservation :
    (release_liquidity true exStLocked 1 "T" 5).2 = Except.ok () ∧
    alistGet (release_liquidity true exStLocked 1 "T" 5).1.pools (1, "T") =
      some { chain_id := 1, token := "T", available := 0, locked := 5,
             target := 0, last_rebalance := 0 } ∧
    ¬ poolSum (release_liquidity true exStLocked 1 "T" 5).1 (1, "T") =
        poolSum exStLocked (1, "T") ∧
    ¬ (alistGet (release_liquidity true exStLocked 1 "T" 5).1.pools
        (1, "T")).map LiquidityPool.available = some 5 := by
  refine ⟨rfl, by decide, by decide, by decide⟩

/-- Claim C2 (amended): over every sequence of pool operations all
balances stay nonnegative (structurally, u64 values are Nat here, and
every subtraction sits behind the guard of the source); available +
locked is preserved by lock (when `locked + amount` does not wrap) and
changed by add and remove; but `release_liquidity` does NOT move the
released amount to available: a successful release only decrements
locked — decreasing available + locked by the amount — and a release
of more than is locked is a silent no-op rather than a clamp. -/
theorem liquidity_conservation_amended :
    (∀ (st : LMState) (c : Nat) (t : String) (a : Nat) (dbOk : Bool)
       (pool : LiquidityPool), alistGet st.pools (c, t) = some pool →
      ((pool.locked < a →
          release_liquidity dbOk st c t a = (st, Except.ok ())) ∧
       (a ≤ pool.locked →
          alistGet (release_liquidity dbOk st c t a).1.pools (c, t) =
            some { pool with locked := pool.locked - a } ∧
          poolSum (release_liquidity dbOk st c t a).1 (c, t) + a =
            poolSum st (c, t)) ∧
       (a ≤ pool.available → pool.locked + a < U64MOD →
          poolSum (lock_liquidity dbOk st c t a).1 (c, t) =
            poolSum st (c, t)) ∧
       (pool.available + a < U64MOD →
          poolSum (add_liquidity dbOk st c t a).1 (c, t) =
            poolSum st (c, t) + a) ∧
       (a ≤ pool.available →
          poolSum (remove_liquidity dbOk st c t a).1 (c, t) + a =
            poolSum st (c, t)))) ∧
    (∀ (st : LMState) (ops : List LMOp), locksNoWrap st ops →
       ∀ k, poolSum (lmRun st ops) k = poolSum st k) := by
  constructor
  · intro st c t a dbOk pool hg
    refine ⟨?_, ?_, ?_, ?_, ?_⟩
    · intro hlt
      simp [release_liquidity, hg, hlt]
    · intro hle
      have hlt : ¬ pool.locked < a := by omega
      cases dbOk <;>
        simp [release_liquidity, hg, hlt, poolSum, alistGet_put_same] <;>
        omega
    · intro hle hwrap
      have h1 : lockNoWrap st (.lock c t a dbOk) := by
        simp only [lockNoWrap, hg]; exact hwrap
      have := lmStep_lock_poolSum st c t a dbOk h1 (c, t)
      simpa [lmStep] using this
    · intro hwrap
      have hmod : (pool.available + a) % U64MOD = pool.available + a :=
        Nat.mod_eq_of_lt hwrap
      cases dbOk <;>
        simp [add_liquidity, hg, poolSum, alistGet_put_same, hmod] <;>
        omega
    · intro hle
      have hlt : ¬ pool.available < a := by omega
      cases dbOk <;>
        simp [remove_liquidity, hg, hlt, poolSum, alistGet_put_same] <;>
        omega
  · intro st ops h k
    exact lmRun_locks_poolSum ops st h k

/-- Witness for `liquidity_conservation_amended` at concrete inputs:
the release clause on `exStLocked` (locked 10, release 4) and the
lock-only sequence clause on `exStAvail`. -/
theorem liquidity_conservation_amended_witness :
    poolSum (release_liquidity true exStLocked 1 "T" 4).1 (1, "T") + 4 =
      poolSum exStLocked (1, "T") ∧
    poolSum (lmRun exStAvail [.lock 1 "T" 3 true, .lock 1 "T" 2 true])
      (1, "T") = poolSum exStAvail (1, "T") := by
  constructor
  · exact ((liquidity_conservation_amended.1 exStLocked 1 "T" 4 true
      exPoolLocked (by decide)).2.1 (by decide)).2
  · exact liquidity_conservation_amended.2 exStAvail
      [.lock 1 "T" 3 true, .lock 1 "T" 2 true]
      (by constructor
          · simp [lockNoWrap, exStAvail, exPoolAvail, alistGet, U64MOD]
          · constructor
            · simp [lockNoWrap, lmStep, lock_liquidity, exStAvail,
                exPoolAvail, alistGet, alistPut, U64MOD]
            · trivial)
      (1, "T")

/-! ## Claim C3 — atomicity of pool mutation with the durable write -/

/-- Claim C3 counterexample: locking 4 from `exStAvail` while the
durable write fails returns an error, yet the in-memory pool keeps the
mutation (available 6, locked 4) instead of being rolled back.  The
claim as stated is false on the source. -/
theorem lock_liquidity_no_rollback :
    (lock_liquidity false exStAvail 1 "T" 4).2 =
      Except.error "database write failed" ∧
    ¬ (lock_liquidity false exStAvail 1 "T" 4).1 = exStAvail ∧
    alistGet (lock_liquidity false exStAvail 1 "T" 4).1.pools (1, "T") =
      some { chain_id := 1, token := "T", available := 6, locked := 4,
             target := 0, last_rebalance := 0 } := by
  refine ⟨rfl, by decide, by decide⟩

/-- Claim C3 (amended): when the durable write of the snapshot fails,
every mutating pool operation returns an error but does NOT roll back:
the in-memory table keeps the fully mutated pool while the durable
snapshot keeps its old contents, so the two diverge. -/
theorem liquidity_durable_write_failure_amended :
    ∀ (st : LMState) (c : Nat) (t : String) (a : Nat)
      (pool : LiquidityPool), alistGet st.pools (c, t) = some pool →
      ((a ≤ pool.available →
         (lock_liquidity false st c t a).2 =
             Except.error "database write failed" ∧
           (lock_liquidity false st c t a).1.pools =
             alistPut st.pools (c, t)
               { pool with
                 available := pool.available - a,
                 locked := (pool.locked + a) % U64MOD } ∧
           (lock_liquidity false st c t a).1.db = st.db) ∧
       (a ≤ pool.locked →
         (release_liquidity false st c t a).2 =
             Except.error "database write failed" ∧
           (release_liquidity false st c t a).1.pools =
             alistPut st.pools (c, t) { pool with locked := pool.locked - a } ∧
           (release_liquidity false st c t a).1.db = st.db) ∧
       ((add_liquidity false st c t a).2 =
             Except.error "database write failed" ∧
           (add_liquidity false st c t a).1.pools =
             alistPut st.pools (c, t)
               { pool with available := (pool.available + a) % U64MOD } ∧
           (add_liquidity false st c t a).1.db = st.db) ∧
       (a ≤ pool.available →
         (remove_liquidity false st c t a).2 =
             Except.error "database write failed" ∧
           (remove_liquidity false st c t a).1.pools =
             alistPut st.pools (c, t)
               { pool with available := pool.available - a } ∧
           (remove_liquidity false st c t a).1.db = st.db)) := by
  intro st c t a pool hg
  refine ⟨?_, ?_, ?_, ?_⟩
  · intro hle
    have hlt : ¬ pool.available < a := by omega
    refine ⟨by simp [lock_liquidity, hg, hlt],
      by simp [lock_liquidity, hg, hlt],
      by simp [lock_liquidity, hg, hlt]⟩
  · intro hle
    have hlt : ¬ pool.locked < a := by omega
    refine ⟨by simp [release_liquidity, hg, hlt],
      by simp [release_liquidity, hg, hlt],
      by simp [release_liquidity, hg, hlt]⟩
  · refine ⟨by simp [add_liquidity, hg],
      by simp [add_liquidity, hg],
      by simp [add_liquidity, hg]⟩
  · intro hle
    have hlt : ¬ pool.available < a := by omega
    refine ⟨by simp [remove_liquidity, hg, hlt],
      by simp [remove_liquidity, hg, hlt],
      by simp [remove_liquidity, hg, hlt]⟩

/-- Witness for `liquidity_durable_write_failure_amended`: the lock
clause on `exStAvail` with amount 4. -/
theorem liquidity_durable_write_failure_amended_witness :
    (lock_liquidity false exStAvail 1 "T" 4).1.pools =
      alistPut exStAvail.pools (1, "T")
        { exPoolAvail with
          available := exPoolAvail.available - 4,
          locked := (exPoolAvail.locked + 4) % U64MOD } ∧
    (lock_liquidity false exStAvail 1 "T" 4).1.db = exStAvail.db :=
  ⟨((liquidity_durable_write_failure_amended exStAvail 1 "T" 4 exPoolAvail
      (by decide)).1 (by decide)).2.1,
   ((liquidity_durable_write_failure_amended exStAvail 1 "T" 4 exPoolAvail
      (by decide)).1 (by decide)).2.2⟩

/-! ## Claim C10 — behavior on a missing pool -/

/-- Claim C10: on a (chain, token) pair with no pool, ensure, lock,
release and remove all fail with "Pool not found" leaving the state
unchanged, while add creates the pool with available equal to the
added amount and locked 0. -/
theorem missing_pool_behavior :
    ∀ (st : LMState) (c : Nat) (t : String) (a : Nat) (dbOk : Bool),
      alistGet st.pools (c, t) = none →
      (ensure_liquidity st c t a = Except.error "Pool not found" ∧
       lock_liquidity dbOk st c t a = (st, Except.error "Pool not found") ∧
       release_liquidity dbOk st c t a =
         (st, Except.error "Pool not found") ∧
       remove_liquidity dbOk st c t a =
         (st, Except.error "Pool not found") ∧
       (add_liquidity true st c t a).2 = Except.ok () ∧
       (a < U64MOD →
         alistGet (add_liquidity true st c t a).1.pools (c, t) =
           some { chain_id := c, token := t, available := a, locked := 0,
                  target := 0, last_rebalance := 0 })) := by
  intro st c t a dbOk hg
  refine ⟨?_, ?_, ?_, ?_, ?_, ?_⟩
  · simp [ensure_liquidity, hg]
  · simp [lock_liquidity, hg]
  · simp [release_liquidity, hg]
  · simp [remove_liquidity, hg]
  · simp [add_liquidity, hg]
  · intro ha
    simp [add_liquidity, hg, alistGet_put_same, Nat.mod_eq_of_lt ha]

/-- Witness for `missing_pool_behavior` on the empty manager state. -/
theorem missing_pool_behavior_witness :
    lock_liquidity true exStEmpty 3 "X" 7 =
      (exStEmpty, Except.error "Pool not found") ∧
    alistGet (add_liquidity true exStEmpty 3 "X" 7).1.pools (3, "X") =
      some { chain_id := 3, token := "X", available := 7, locked := 0,
             target := 0, last_rebalance := 0 } := by
  have h := missing_pool_behavior exStEmpty 3 "X" 7 true (by decide)
  exact ⟨h.2.1, h.2.2.2.2.2 (by decide)⟩

/-! ## Claim C4 — notification idempotency -/

/-- Claim C4 counterexample: notifying the same deposit twice leaves
exactly one record, but the second notification is REJECTED with HTTP
500 (the storage layer does a plain INSERT into a primary-key table,
not an upsert), not accepted idempotently.  The claim as stated is
false on the source. -/
theorem notify_duplicate_rejected :
    (notify_deposit_handler exDb0 exNotif).2 = Except.ok "queued" ∧
    (notify_deposit_handler (notify_deposit_handler exDb0 exNotif).1
        exNotif).2 = Except.error 500 ∧
    (notify_deposit_handler (notify_deposit_handler exDb0 exNotif).1
        exNotif).1 = (notify_deposit_handler exDb0 exNotif).1 ∧
    (notify_withdrawal_handler
        (notify_withdrawal_handler exDb0 3 exWNotif).1 3 exWNotif).2 =
      Except.error 500 := by
  refine ⟨rfl, rfl, by decide, rfl⟩

/-- Claim C4 (amended): a first notification of a deposit_id (or
withdrawal_id) stores exactly one record and answers "queued"; a
second notification of the same id is rejected with HTTP 500 by the
unique-key violation of the plain INSERT and leaves the store
untouched, so exactly one stored record and one processing outcome
remain, but the duplicate does NOT succeed idempotently. -/
theorem notification_idempotency_amended :
    ∀ (db : Database) (n : DepositNotification) (now : Int)
      (wn : WithdrawalNotification),
      (db.deposits.any (fun d => d.deposit_id = n.deposit_id) = false →
        notify_deposit_handler db n =
          ({ db with deposits := db.deposits ++ [depositOfNotification n] },
           Except.ok "queued") ∧
        (notify_deposit_handler
            (notify_deposit_handler db n).1 n).2 = Except.error 500 ∧
        (notify_deposit_handler
            (notify_deposit_handler db n).1 n).1 =
          (notify_deposit_handler db n).1 ∧
        ((notify_deposit_handler db n).1.deposits.filter
            (fun d => d.deposit_id = n.deposit_id)).length = 1) ∧
      (db.deposits.any (fun d => d.deposit_id = n.deposit_id) = true →
        notify_deposit_handler db n = (db, Except.error 500)) ∧
      (db.withdrawals.any
          (fun w => w.withdrawal_id = wn.withdrawal_id) = false →
        notify_withdrawal_handler db now wn =
          ({ db with withdrawals :=
              db.withdrawals ++ [withdrawalOfNotification now wn] },
           Except.ok "queued") ∧
        (notify_withdrawal_handler
            (notify_withdrawal_handler db now wn).1 now wn).2 =
          Except.error 500 ∧
        ((notify_withdrawal_handler db now wn).1.withdrawals.filter
            (fun w => w.withdrawal_id = wn.withdrawal_id)).length = 1) ∧
      (db.withdrawals.any
          (fun w => w.withdrawal_id = wn.withdrawal_id) = true →
        notify_withdrawal_handler db now wn = (db, Except.error 500)) := by
  intro db n now wn
  refine ⟨?_, ?_, ?_, ?_⟩
  · intro hfresh
    have hnil : db.deposits.filter (fun d => d.deposit_id = n.deposit_id)
        = [] := by
      rw [List.filter_eq_nil_iff]
      intro d hd
      have := List.any_eq_false.mp hfresh d hd
      simpa using this
    have hex : ¬ ∃ x ∈ db.deposits,
        x.deposit_id = (depositOfNotification n).deposit_id := by
      simpa [depositOfNotification] using hfresh
    have h1 : notify_deposit_handler db n =
        ({ db with deposits := db.deposits ++ [depositOfNotification n] },
         Except.ok "queued") := by
      simp [notify_deposit_handler, store_deposit, hex]
    have hmem : ∃ x ∈ db.deposits ++ [depositOfNotification n],
        x.deposit_id = (depositOfNotification n).deposit_id :=
      ⟨depositOfNotification n, by simp, rfl⟩
    have h2 : notify_deposit_handler
        ({ db with
           deposits := db.deposits ++ [depositOfNotification n] } :
          Database) n =
        (({ db with
            deposits := db.deposits ++ [depositOfNotification n] } :
           Database), Except.error 500) := by
      simp [notify_deposit_handler, store_deposit, hmem]
    refine ⟨h1, ?_, ?_, ?_⟩
    · rw [h1]; rw [h2]
    · rw [h1]; rw [h2]
    · rw [h1]
      simp [List.filter_append, hnil, depositOfNotification]
  · intro hdup
    have hex : ∃ x ∈ db.deposits,
        x.deposit_id = (depositOfNotification n).deposit_id := by
      simpa [depositOfNotification] using hdup
    simp [notify_deposit_handler, store_deposit, hex]
  · intro hfresh
    have hnil : db.withdrawals.filter
        (fun w => w.withdrawal_id = wn.withdrawal_id) = [] := by
      rw [List.filter_eq_nil_iff]
      intro w hw
      have := List.any_eq_false.mp hfresh w hw
      simpa using this
    have hex : ¬ ∃ x ∈ db.withdrawals,
        x.withdrawal_id = (withdrawalOfNotification now wn).withdrawal_id
        := by
      simpa [withdrawalOfNotification] using hfresh
    have h1 : notify_withdrawal_handler db now wn =
        ({ db with withdrawals :=
            db.withdrawals ++ [withdrawalOfNotification now wn] },
         Except.ok "queued") := by
      simp [notify_withdrawal_handler, store_withdrawal, hex]
    have hmem : ∃ x ∈ db.withdrawals ++ [withdrawalOfNotification now wn],
        x.withdrawal_id = (withdrawalOfNotification now wn).withdrawal_id
        :=
      ⟨withdrawalOfNotification now wn, by simp, rfl⟩
    have h2 : notify_withdrawal_handler
        ({ db with withdrawals :=
            db.withdrawals ++ [withdrawalOfNotification now wn] } :
          Database) now wn =
        (({ db with withdrawals :=
             db.withdrawals ++ [withdrawalOfNotification now wn] } :
           Database), Except.error 500) := by
      simp [notify_withdrawal_handler, store_withdrawal, hmem]
    refine ⟨h1, ?_, ?_⟩
    · rw [h1]; rw [h2]
    · rw [h1]
      simp [List.filter_append, hnil, withdrawalOfNotification]
  · intro hdup
    have hex : ∃ x ∈ db.withdrawals,
        x.withdrawal_id = (withdrawalOfNotification now wn).withdrawal_id
        := by
      simpa [withdrawalOfNotification] using hdup
    simp [notify_withdrawal_handler, store_withdrawal, hex]

/-- Witness for `notification_idempotency_amended` on the empty store
and `exNotif`. -/
theorem notification_idempotency_amended_witness :
    notify_deposit_handler exDb0 exNotif =
      ({ exDb0 with
         deposits := exDb0.deposits ++ [depositOfNotification exNotif] },
       Except.ok "queued") ∧
    ((notify_deposit_handler exDb0 exNotif).1.deposits.filter
        (fun d => d.deposit_id = exNotif.deposit_id)).length = 1 := by
  have h := (notification_idempotency_amended exDb0 exNotif 3 exWNotif).1
    (by decide)
  exact ⟨h.1, h.2.2.2⟩

/-! ## Claim C8 — deposit status endpoint -/

/-- Claim C8 fails on the source (code bug): the status handler
searches only the PENDING deposits (`get_pending_deposits`, processed
= 0), so a stored deposit that has been processed yields HTTP 404 even
though its id is known to the store; the same record still pending is
served.  Consequently a 200 response can never carry processed = true,
although the response schema has the field. -/
theorem deposit_status_handler_misses_processed :
    ({ exDb0 with deposits := [exDepProcessed] } : Database).deposits.any
        (fun d => d.deposit_id = "d1") = true ∧
    deposit_status_handler { exDb0 with deposits := [exDepProcessed] }
        "d1" = Except.error 404 ∧
    deposit_status_handler
        { exDb0 with
          deposits := [{ exDepProcessed with processed := false }] } "d1" =
      Except.ok
        { deposit_id := "d1", processed := false,
          zcash_txid := some "tx", note_commitment := some "c" } := by
  refine ⟨by decide, rfl, rfl⟩

/-! ## Claim C9 — task-claim lease semantics -/

theorem alistGet_drop_same {κ α : Type} [DecidableEq κ]
    (l : List (κ × α)) (k : κ) : alistGet (alistDrop l k) k = none := by
  induction l with
  | nil => rfl
  | cons e rest ih =>
    by_cases he : e.1 = k
    · simp [alistDrop, he, ih]
    · simp [alistDrop, alistGet, he, ih]

/-- Claim C9: after a claim is stored — locally via
`broadcast_task_claim` or learned from a peer CLAIM via
`handle_claim_message` — `is_task_claimed` answers true at every
instant strictly before `claimed_at + 300` and false from expiry on;
after `handle_execution_message` removes the claim for an EXECUTED
task the query answers false. -/
theorem task_claim_lease_semantics :
    ∀ (claims : ClaimMap) (self task_id tx : String) (now t : Int),
      (t < now + 300 →
        is_task_claimed (broadcast_task_claim claims self now task_id)
            task_id t = true ∧
        is_task_claimed (handle_claim_message claims now task_id)
            task_id t = true) ∧
      (now + 300 ≤ t →
        is_task_claimed (broadcast_task_claim claims self now task_id)
            task_id t = false ∧
        is_task_claimed (handle_claim_message claims now task_id)
            task_id t = false) ∧
      is_task_claimed (handle_execution_message claims task_id tx)
          task_id t = false := by
  intro claims self task_id tx now t
  refine ⟨?_, ?_, ?_⟩
  · intro hlt
    constructor <;>
      simp [is_task_claimed, broadcast_task_claim, handle_claim_message,
        alistGet_put_same] <;> omega
  · intro hge
    constructor <;>
      simp [is_task_claimed, broadcast_task_claim, handle_claim_message,
        alistGet_put_same] <;> omega
  · simp [is_task_claimed, handle_execution_message, alistGet_drop_same]

/-! ## Claim C7 — token registry duplicate aliases -/

theorem loadReprs_fold_lookup (cid : String) (tdef : TokenDefinition) :
    ∀ (rs : List TokenRepresentation)
      (rev0 : List ((Nat × String) × String)) (cs : List ChainToken)
      (k : Nat × String),
      alistGet (rs.foldl
        (fun acc r =>
          (alistPut acc.1 (r.chain_id, (strLower r.address)) cid,
           acc.2 ++ [mkChainToken tdef r])) (rev0, cs)).1 k =
        if rs.any (fun r => (r.chain_id, (strLower r.address)) = k) then
          some cid
        else alistGet rev0 k := by
  intro rs
  induction rs with
  | nil => intro rev0 cs k; simp
  | cons r rest ih =>
    intro rev0 cs k
    rw [List.foldl_cons, ih]
    by_cases hk : (r.chain_id, (strLower r.address)) = k
    · by_cases hany : rest.any
          (fun r => (r.chain_id, (strLower r.address)) = k) = true
      · simp [hany, hk]
      · simp only [Bool.not_eq_true] at hany
        rw [hk, alistGet_put_same]
        simp [hany, hk]
    · rw [alistGet_put_other _ _ _ _ (fun hh => hk hh.symm)]
      simp [hk]

theorem loadReprs_lookup (cid : String) (tdef : TokenDefinition)
    (rev0 : List ((Nat × String) × String)) (k : Nat × String) :
    alistGet (loadReprs cid tdef rev0).1 k =
      if tdef.representations.any
          (fun r => (r.chain_id, (strLower r.address)) = k) then some cid
      else alistGet rev0 k := by
  unfold loadReprs
  exact loadReprs_fold_lookup cid tdef tdef.representations rev0 [] k

theorem loadTokens_rev_lookup (Hc : String → String)
    (ts : List TokenDefinition) :
    ∀ (m0 : List (String × TokenMappings))
      (rev0 : List ((Nat × String) × String)) (k : Nat × String),
      alistGet (loadTokens Hc (m0, rev0) ts).2 k =
        match lastAlias Hc k ts with
        | some cid => some cid
        | none => alistGet rev0 k := by
  induction ts with
  | nil => intro m0 rev0 k; simp [loadTokens, lastAlias]
  | cons tdef rest ih =>
    intro m0 rev0 k
    simp only [loadTokens]
    rw [ih]
    cases h : lastAlias Hc k rest with
    | some c => simp [lastAlias, h]
    | none =>
      rw [loadReprs_lookup]
      by_cases hany : tdef.representations.any
          (fun r => (r.chain_id, (strLower r.address)) = k) = true
      · simp [lastAlias, h, hany]
      · simp only [Bool.not_eq_true] at hany
        simp [lastAlias, h, hany]

/-- Claim C7 counterexample: a configuration aliasing chain 1 address
0xAbc to the two distinct canonical ids of symbols a and b is ACCEPTED
by load — no ConfigError, the registry is constructed — and the
reverse lookup silently resolves the address to the id of the later
definition.  The claim as stated is false on the source. -/
theorem load_accepts_duplicate_alias :
    exTokA.representations.any
        (fun r => (r.chain_id, (strLower r.address)) = (1, "0xabc")) = true ∧
    exTokB.representations.any
        (fun r => (r.chain_id, (strLower r.address)) = (1, "0xabc")) = true ∧
    ¬ compute_canonical_id id exTokA.symbol =
        compute_canonical_id id exTokB.symbol ∧
    get_canonical_id (load id exCfgDup) 1 "0xAbc" =
      some (compute_canonical_id id exTokB.symbol) := by
  refine ⟨by decide, by decide, by decide, by decide⟩

/-- Claim C7 (amended): `TokenRegistry::load` does NOT fail on a file
aliasing one (chain_id, lowercased address) to two canonical ids; it
always constructs a registry, and the reverse lookup resolves every
chain address to the canonical id of the last definition in file order
that carries a representation for it (later insertions silently
overwrite earlier ones), so the lookup is functional but duplicate
aliases are neither rejected nor ignored. -/
theorem registry_reverse_lookup_last_wins :
    ∀ (Hc : String → String) (cfg : TokenConfig) (chain_id : Nat)
      (addr : String),
      get_canonical_id (load Hc cfg) chain_id addr =
        lastAlias Hc (chain_id, (strLower addr)) cfg.tokens := by
  intro Hc cfg chain_id addr
  unfold get_canonical_id load
  rw [loadTokens_rev_lookup]
  cases h : lastAlias Hc (chain_id, (strLower addr)) cfg.tokens <;> simp [h]
  · rfl

/-- Witness for `task_claim_lease_semantics`: claim at time 1000,
queried at 1299 (inside the lease) and 1300 (expired). -/
theorem task_claim_lease_semantics_witness :
    is_task_claimed (broadcast_task_claim [] "me" 1000 "t1") "t1" 1299 =
      true ∧
    is_task_claimed (broadcast_task_claim [] "me" 1000 "t1") "t1" 1300 =
      false ∧
    is_task_claimed
        (handle_execution_message
          (broadcast_task_claim [] "me" 1000 "t1") "t1" "tx") "t1" 1001 =
      false := by
  have h := task_claim_lease_semantics [] "me" "t1" "tx" 1000
  exact ⟨((h 1299).1 (by decide)).1, ((h 1300).2.1 (by decide)).1,
    (task_claim_lease_semantics (broadcast_task_claim [] "me" 1000 "t1")
      "me" "t1" "tx" 1000 1001).2.2⟩

/-! ## Claim C5 — authorization signature -/

/-- Claim C5 fails on the source (code bug): the coordinator hashes
the canonical message withdrawal_id, recipient, token_address,
amount little-endian, nullifier — but returns that bare digest AS the
signature.  No signing key enters the computation (the function reads
no coordinator field and the configuration carries only a Zcash
spending key), so two coordinators with different keys emit identical
authorizations and no gateway can verify anything against a
configured coordinator key; the Solana gateway even expects a 65-byte
recoverable signature while a SHA-256 digest has 32 bytes. -/
theorem signature_is_bare_hash :
    (∀ (H : List Nat → List Nat) (cfg : CoordConfig)
       (wid rcpt tok : String) (amount : Nat) (nul : List Nat),
       generate_withdrawal_signature H cfg wid rcpt tok amount nul =
         H (strBytes wid ++ strBytes rcpt ++ strBytes tok ++
            u64le amount ++ nul)) ∧
    generate_withdrawal_signature id { spending_key := "key-one" }
        "w1" "r" "t" 5 [1, 2] =
      generate_withdrawal_signature id { spending_key := "key-two" }
        "w1" "r" "t" 5 [1, 2] := by
  constructor
  · intro H cfg wid rcpt tok amount nul
    simp [generate_withdrawal_signature, hUpdate]
  · rfl

/-! ## Claim C6 — invalid proof discards the withdrawal -/

/-- Claim C6: when the proof of a pending withdrawal does not verify,
`handle_withdrawal` deletes the record (the generic discard, reason
string "Invalid proof"), leaves deposits, nullifiers and every
liquidity pool untouched, issues no authorization, and returns
normally, so the tick loop continues with the other items. -/
theorem invalid_proof_discards_withdrawal :
    ∀ (pv : List Nat → List Nat → List Nat → Nat → Bool)
      (H : List Nat → List Nat) (reg : TokenRegistry)
      (cfg : CoordConfig) (relDbOk : Bool) (st : CoordState)
      (w : Withdrawal),
      pv w.nullifier w.zcash_proof w.merkle_root w.amount = false →
      ((handle_withdrawal pv H reg cfg relDbOk st w).2 =
          HandleResult.discarded "Invalid proof" ∧
       (handle_withdrawal pv H reg cfg relDbOk st w).1.db.withdrawals =
          st.db.withdrawals.filter
            (fun w2 => ¬ w2.withdrawal_id = w.withdrawal_id) ∧
       (handle_withdrawal pv H reg cfg relDbOk st w).1.db.deposits =
          st.db.deposits ∧
       (handle_withdrawal pv H reg cfg relDbOk st w).1.db.nullifiers =
          st.db.nullifiers ∧
       (handle_withdrawal pv H reg cfg relDbOk st w).1.lm = st.lm ∧
       didAuthorize (handle_withdrawal pv H reg cfg relDbOk st w).2 =
          false) := by
  intro pv H reg cfg relDbOk st w hpv
  have hv : verify_withdrawal_proof pv st.db w.nullifier w.zcash_proof
      w.merkle_root w.amount = false := by
    simp [verify_withdrawal_proof, hpv]
  refine ⟨?_, ?_, ?_, ?_, ?_, ?_⟩ <;>
    simp [handle_withdrawal, hv, mark_withdrawal_invalid, didAuthorize]

/-- Witness for `invalid_proof_discards_withdrawal`: the withdrawal
`exWBad` whose proof `[0]` is invalid for `exPv`. -/
theorem invalid_proof_discards_withdrawal_witness :
    (handle_withdrawal exPv id exReg exCfg true exCst exWBad).2 =
      HandleResult.discarded "Invalid proof" ∧
    (handle_withdrawal exPv id exReg exCfg true exCst exWBad).1.lm =
      exCst.lm := by
  have h := invalid_proof_discards_withdrawal exPv id exReg exCfg true
    exCst exWBad (by decide)
  exact ⟨h.1, h.2.2.2.2.1⟩

/-! ## Claim C1 — nullifier exclusivity -/

theorem is_spent_mark_same (db : Database) (key : String) :
    is_nullifier_spent (mark_nullifier_spent db key) key = true := by
  simp [is_nullifier_spent, mark_nullifier_spent, alistGet_put_same]

theorem is_spent_mark_mono (db : Database) (key key2 : String)
    (h : is_nullifier_spent db key2 = true) :
    is_nullifier_spent (mark_nullifier_spent db key) key2 = true := by
  by_cases hk : key2 = key
  · subst hk; exact is_spent_mark_same db key2
  · simpa [is_nullifier_spent, mark_nullifier_spent,
      alistGet_put_other _ _ _ _ hk] using h

theorem handle_spent_mono (pv : List Nat → List Nat → List Nat → Nat → Bool)
    (H : List Nat → List Nat) (reg : TokenRegistry) (cfg : CoordConfig)
    (ok : Bool) (st : CoordState) (w : Withdrawal) (key : String)
    (h : is_nullifier_spent st.db key = true) :
    is_nullifier_spent
      (handle_withdrawal pv H reg cfg ok st w).1.db key = true := by
  unfold handle_withdrawal
  cases hvb : verify_withdrawal_proof pv st.db w.nullifier w.zcash_proof
      w.merkle_root w.amount
  · simpa [mark_withdrawal_invalid, is_nullifier_spent] using h
  · cases ht : get_token_for_chain reg w.target_chain_id w.token with
    | error e =>
      simp only [ht]
      simpa [sp_mark_nullifier_spent] using
        is_spent_mark_mono st.db (hexEncode w.nullifier) key h
    | ok ti =>
      simp only [ht]
      cases hr : (release_liquidity ok st.lm w.target_chain_id ti.address
          w.amount).2 <;>
        simp only [hr] <;>
        simpa [authorize_withdrawal, is_nullifier_spent,
          sp_mark_nullifier_spent, mark_nullifier_spent] using
          is_spent_mark_mono st.db (hexEncode w.nullifier) key h

theorem handle_spent_discards
    (pv : List Nat → List Nat → List Nat → Nat → Bool)
    (H : List Nat → List Nat) (reg : TokenRegistry) (cfg : CoordConfig)
    (ok : Bool) (st : CoordState) (w : Withdrawal)
    (h : is_nullifier_spent st.db (hexEncode w.nullifier) = true) :
    handle_withdrawal pv H reg cfg ok st w =
      ({ st with db := mark_withdrawal_invalid st.db w.withdrawal_id "Invalid proof" },
       HandleResult.discarded "Invalid proof") := by
  have hv : verify_withdrawal_proof pv st.db w.nullifier w.zcash_proof
      w.merkle_root w.amount = false := by
    simp [verify_withdrawal_proof, h]
  simp [handle_withdrawal, hv]

theorem handle_auth_marks_spent
    (pv : List Nat → List Nat → List Nat → Nat → Bool)
    (H : List Nat → List Nat) (reg : TokenRegistry) (cfg : CoordConfig)
    (ok : Bool) (st : CoordState) (w : Withdrawal)
    (h : didAuthorize (handle_withdrawal pv H reg cfg ok st w).2 = true) :
    is_nullifier_spent (handle_withdrawal pv H reg cfg ok st w).1.db
      (hexEncode w.nullifier) = true := by
  unfold handle_withdrawal at h ⊢
  cases hvb : verify_withdrawal_proof pv st.db w.nullifier w.zcash_proof
      w.merkle_root w.amount
  · rw [hvb] at h; simp [didAuthorize] at h
  · rw [hvb] at h
    cases ht : get_token_for_chain reg w.target_chain_id w.token with
    | error e => rw [ht] at h; simp [didAuthorize] at h
    | ok ti =>
      simp only [ht]
      cases hr : (release_liquidity ok st.lm w.target_chain_id ti.address
          w.amount).2 <;>
        simp only [hr] <;>
        simp [authorize_withdrawal, is_nullifier_spent,
          sp_mark_nullifier_spent, mark_nullifier_spent,
          alistGet_put_same]

theorem authCount_cons (n : List Nat) (w : Withdrawal) (r : HandleResult)
    (tr : List (Withdrawal × HandleResult)) :
    authCount n ((w, r) :: tr) =
      (if w.nullifier = n ∧ didAuthorize r = true then 1 else 0) +
        authCount n tr := by
  unfold authCount
  by_cases h1 : w.nullifier = n
  · by_cases h2 : didAuthorize r = true
    · simp [List.filter_cons, h1, h2]; omega
    · simp [List.filter_cons, h1, h2]
  · simp [List.filter_cons, h1]

theorem authCount_eq_zero (n : List Nat)
    (tr : List (Withdrawal × HandleResult))
    (h : ∀ e ∈ tr, e.1.nullifier = n →
      e.2 = HandleResult.discarded "Invalid proof") :
    authCount n tr = 0 := by
  unfold authCount
  rw [List.length_eq_zero, List.filter_eq_nil_iff]
  intro e he
  by_cases hn : e.1.nullifier = n
  · have := h e he hn
    simp [this, didAuthorize, hn]
  · simp [hn]

theorem coordRun_spent_discards
    (pv : List Nat → List Nat → List Nat → Nat → Bool)
    (H : List Nat → List Nat) (reg : TokenRegistry) (cfg : CoordConfig)
    (ok : Bool) (n : List Nat) (ws : List Withdrawal) :
    ∀ (st : CoordState), is_nullifier_spent st.db (hexEncode n) = true →
      ∀ e ∈ (coordRun pv H reg cfg ok st ws).2, e.1.nullifier = n →
        e.2 = HandleResult.discarded "Invalid proof" := by
  induction ws with
  | nil => intro st h e he; simp [coordRun] at he
  | cons w ws ih =>
    intro st h e he hn
    simp only [coordRun] at he
    rw [List.mem_cons] at he
    cases he with
    | inl heq =>
      subst heq
      simp only at hn
      have hw : is_nullifier_spent st.db (hexEncode w.nullifier) = true := by
        rw [hn]; exact h
      rw [handle_spent_discards pv H reg cfg ok st w hw]
    | inr hmem =>
      exact ih (handle_withdrawal pv H reg cfg ok st w).1
        (handle_spent_mono pv H reg cfg ok st w (hexEncode n) h)
        e hmem hn

theorem coordRun_authCount_le_one
    (pv : List Nat → List Nat → List Nat → Nat → Bool)
    (H : List Nat → List Nat) (reg : TokenRegistry) (cfg : CoordConfig)
    (ok : Bool) (n : List Nat) (ws : List Withdrawal) :
    ∀ (st : CoordState),
      authCount n (coordRun pv H reg cfg ok st ws).2 ≤ 1 := by
  induction ws with
  | nil => intro st; simp [coordRun, authCount]
  | cons w ws ih =>
    intro st
    simp only [coordRun]
    rw [authCount_cons]
    by_cases hc : w.nullifier = n ∧
        didAuthorize (handle_withdrawal pv H reg cfg ok st w).2 = true
    · have hspent : is_nullifier_spent
          (handle_withdrawal pv H reg cfg ok st w).1.db (hexEncode n) =
          true := by
        rw [← hc.1]
        exact handle_auth_marks_spent pv H reg cfg ok st w hc.2
      have hzero := authCount_eq_zero n _
        (coordRun_spent_discards pv H reg cfg ok n ws
          (handle_withdrawal pv H reg cfg ok st w).1 hspent)
      rw [if_pos hc, hzero]
    · rw [if_neg hc, Nat.zero_add]
      exact ih (handle_withdrawal pv H reg cfg ok st w).1

/-- Claim C1 counterexample: two pending withdrawals share nullifier
`[1, 2]`; the pipeline authorizes the first and discards the second,
but the discard reason passed is the generic "Invalid proof" (and the
store ignores it, deleting the row) — nothing is ever discarded with
reason NullifierUsed, so the claim as stated is false on the source
(completed with the spec-modelled shielded pool). -/
theorem withdrawal_nullifier_reason_counterexample :
    (coordRun exPv id exReg exCfg true exCst [exW1, exW2]).2 =
      [(exW1, HandleResult.ok),
       (exW2, HandleResult.discarded "Invalid proof")] ∧
    ¬ "Invalid proof" = "NullifierUsed" := by
  refine ⟨by decide, by decide⟩

/-- Claim C1 (amended): over every sequence of withdrawal-pipeline
executions at most one execution per nullifier performs the
authorization write; once a nullifier is spent, every later pipeline
execution of a withdrawal bearing it — the same record again or any
other — is discarded (deleted) through the generic invalid-proof path,
whose reason string is "Invalid proof" and is ignored by the store,
never authorized; in particular processing the same pending record
twice authorizes it exactly once and the second pass discards it. -/
theorem withdrawal_nullifier_exclusivity_amended :
    (∀ (pv : List Nat → List Nat → List Nat → Nat → Bool)
       (H : List Nat → List Nat) (reg : TokenRegistry)
       (cfg : CoordConfig) (ok : Bool) (st : CoordState)
       (ws : List Withdrawal) (n : List Nat),
       authCount n (coordRun pv H reg cfg ok st ws).2 ≤ 1) ∧
    (∀ (pv : List Nat → List Nat → List Nat → Nat → Bool)
       (H : List Nat → List Nat) (reg : TokenRegistry)
       (cfg : CoordConfig) (ok : Bool) (st : CoordState)
       (ws : List Withdrawal) (n : List Nat),
       is_nullifier_spent st.db (hexEncode n) = true →
       ∀ e ∈ (coordRun pv H reg cfg ok st ws).2, e.1.nullifier = n →
         e.2 = HandleResult.discarded "Invalid proof") ∧
    (∀ (pv : List Nat → List Nat → List Nat → Nat → Bool)
       (H : List Nat → List Nat) (reg : TokenRegistry)
       (cfg : CoordConfig) (ok : Bool) (st : CoordState) (w : Withdrawal),
       didAuthorize (handle_withdrawal pv H reg cfg ok st w).2 = true →
       (coordRun pv H reg cfg ok st [w, w]).2 =
         [(w, (handle_withdrawal pv H reg cfg ok st w).2),
          (w, HandleResult.discarded "Invalid proof")] ∧
       authCount w.nullifier (coordRun pv H reg cfg ok st [w, w]).2 = 1) := by
  refine ⟨?_, ?_, ?_⟩
  · intro pv H reg cfg ok st ws n
    exact coordRun_authCount_le_one pv H reg cfg ok n ws st
  · intro pv H reg cfg ok st ws n h
    exact coordRun_spent_discards pv H reg cfg ok n ws st h
  · intro pv H reg cfg ok st w hauth
    have hspent : is_nullifier_spent
        (handle_withdrawal pv H reg cfg ok st w).1.db
        (hexEncode w.nullifier) = true :=
      handle_auth_marks_spent pv H reg cfg ok st w hauth
    have hsecond := handle_spent_discards pv H reg cfg ok
      (handle_withdrawal pv H reg cfg ok st w).1 w hspent
    constructor
    · simp only [coordRun, hsecond]
    · simp only [coordRun, hsecond]
      rw [authCount_cons, authCount_cons]
      rw [if_pos ⟨rfl, hauth⟩]
      rw [if_neg (by simp [didAuthorize])]
      simp [authCount]

/-- Witness for `withdrawal_nullifier_exclusivity_amended`: the
double-processing of `exW1` (whose first pass authorizes) and the
count bound on the shared-nullifier pair. -/
theorem withdrawal_nullifier_exclusivity_amended_witness :
    authCount [1, 2] (coordRun exPv id exReg exCfg true exCst
        [exW1, exW2]).2 ≤ 1 ∧
    (coordRun exPv id exReg exCfg true exCst [exW1, exW1]).2 =
      [(exW1, (handle_withdrawal exPv id exReg exCfg true exCst exW1).2),
       (exW1, HandleResult.discarded "Invalid proof")] ∧
    authCount [1, 2] (coordRun exPv id exReg exCfg true exCst
        [exW1, exW1]).2 = 1 := by
  have h3 := withdrawal_nullifier_exclusivity_amended.2.2 exPv id exReg
    exCfg true exCst exW1 (by decide)
  exact ⟨withdrawal_nullifier_exclusivity_amended.1 exPv id exReg exCfg
    true exCst [exW1, exW2] [1, 2], h3.1, h3.2⟩

end ZeroBridge

